import Mathlib

/-!
Verification of the two WLST administration scripts of the repository:

* `create-wls-domain.py` — creates a WebLogic domain from a template,
  driven by environment variables;
* `setupTestJMSQueue.py` — provisions JMS resources against a running
  WebLogic instance.

Each script is embedded shallowly as a pure function that returns the
trace of administrative calls it issues, in order.  Environment lookups
(`os.environ.get`), the remote state the messaging script inspects
(`ls(returnMap='true')` on `/JMSServers`), and the free WLST variables
`username`/`password` become explicit parameters.  `print` statements are
not administrative calls and are not part of the traces.
-/

namespace WLS

/-- The process environment, restricted to the variables the domain
creation script reads.  `none` models an unset variable. -/
structure Env where
  DOMAIN_NAME : Option String
  ADMIN_NAME : Option String
  ADMIN_LISTEN_PORT : Option String
  PRODUCTION_MODE : Option String
  ADMINISTRATION_PORT_ENABLED : Option String
  ADMINISTRATION_PORT : Option String
deriving DecidableEq

/-- Accumulate decimal digits; any non-digit character fails the parse. -/
def parseDigitsAux : List Char → Nat → Option Nat
  | [], acc => some acc
  | c :: cs, acc =>
      if c.isDigit then parseDigitsAux cs (acc * 10 + (c.toNat - 48)) else none

/-- Model of Python `int()` on an optionally signed decimal string (the
only shapes the script ever feeds it); a string with no digits, or with a
non-digit character, raises in Python and is `none` here. -/
def pyInt (s : String) : Option Int :=
  match s.data with
  | [] => none
  | '-' :: [] => none
  | '-' :: cs => (parseDigitsAux cs 0).map (fun n => -(n : Int))
  | '+' :: [] => none
  | '+' :: cs => (parseDigitsAux cs 0).map (fun n => (n : Int))
  | cs => (parseDigitsAux cs 0).map (fun n => (n : Int))

/-- Source: `domain_name  = os.environ.get("DOMAIN_NAME", "base_domain")` -/
def domain_name (env : Env) : String := env.DOMAIN_NAME.getD "base_domain"

/-- Source: `admin_name  = os.environ.get("ADMIN_NAME", "AdminServer")` -/
def admin_name (env : Env) : String := env.ADMIN_NAME.getD "AdminServer"

/-- Source: `admin_listen_port = int(os.environ.get("ADMIN_LISTEN_PORT", "7001"))` -/
def admin_listen_port (env : Env) : Option Int :=
  pyInt (env.ADMIN_LISTEN_PORT.getD "7001")

/-- Source: `domain_path  = '/u01/oracle/user_projects/domains/%s' % domain_name` -/
def domain_path_of (env : Env) : String :=
  "/u01/oracle/user_projects/domains/" ++ domain_name env

/-- Source: `production_mode = os.environ.get("PRODUCTION_MODE", "prod")` -/
def production_mode (env : Env) : String := env.PRODUCTION_MODE.getD "prod"

/-- Source: `administration_port_enabled = os.environ.get("ADMINISTRATION_PORT_ENABLED", "true")` -/
def administration_port_enabled (env : Env) : String :=
  env.ADMINISTRATION_PORT_ENABLED.getD "true"

/-- Source: `administration_port = int(os.environ.get("ADMINISTRATION_PORT", "9002"))` -/
def administration_port (env : Env) : Option Int :=
  pyInt (env.ADMINISTRATION_PORT.getD "9002")

/-- The configuration values the script computes from the environment in
its variable initialisation block (lines 25-31). -/
structure Config where
  domain_name : String
  admin_name : String
  admin_listen_port : Int
  production_mode : String
  administration_port_enabled : String
  administration_port : Int
deriving DecidableEq

/-- Derived: `domain_path` as derived from the configured domain name. -/
def Config.domain_path (cfg : Config) : String :=
  "/u01/oracle/user_projects/domains/" ++ cfg.domain_name

/-- The variable initialisation block of the script; `none` when one of
the two `int()` conversions raises. -/
def mkConfig (env : Env) : Option Config :=
  match admin_listen_port env, administration_port env with
  | some lp, some ap =>
      some ⟨domain_name env, admin_name env, lp, production_mode env,
            administration_port_enabled env, ap⟩
  | _, _ => none

/-- A value passed to a WLST `set` call: the script passes strings and
Python integers. -/
inductive WValue where
  | str (s : String)
  | int (n : Int)
deriving DecidableEq

/-- One administrative call of the domain creation script. -/
inductive WLSTCall where
  | readTemplate (path : String)
  | set (bean : String) (v : WValue)
  | setOption (opt value : String)
  | cd (path : String)
  | create (name kind : String)
  | cmoSetName (n : String)
  | cmoSetPassword (p : String)
  | writeDomain (path : String)
  | closeTemplate
  | exit
deriving DecidableEq

/-- The trace of administrative calls issued by `create-wls-domain.py`
(lines 43-104) for a given configuration; `username` and `password` are
free WLST variables supplied by the caller of the script. -/
def domainTrace (cfg : Config) (username password : String) : List WLSTCall :=
  [WLSTCall.readTemplate "/u01/oracle/wlserver/common/templates/wls/wls.jar",
   WLSTCall.set "Name" (WValue.str cfg.domain_name),
   WLSTCall.setOption "DomainName" cfg.domain_name]
  ++ (if cfg.administration_port_enabled ≠ "false" then
        [WLSTCall.set "AdministrationPort" (WValue.int cfg.administration_port),
         WLSTCall.set "AdministrationPortEnabled" (WValue.str "false")]
      else [])
  ++ [WLSTCall.cd "/Servers/AdminServer",
      WLSTCall.set "Name" (WValue.str cfg.admin_name),
      WLSTCall.set "ListenAddress" (WValue.str ""),
      WLSTCall.set "ListenPort" (WValue.int cfg.admin_listen_port)]
  ++ (if cfg.administration_port_enabled ≠ "false" then
        [WLSTCall.create cfg.admin_name "SSL",
         WLSTCall.cd ("SSL/" ++ cfg.admin_name),
         WLSTCall.set "Enabled" (WValue.str "True")]
      else [])
  ++ [WLSTCall.cd ("/Security/" ++ cfg.domain_name ++ "/User/weblogic"),
      WLSTCall.cmoSetName username,
      WLSTCall.cmoSetPassword password,
      WLSTCall.setOption "OverwriteDomain" "true",
      WLSTCall.setOption "ServerStartMode" cfg.production_mode,
      WLSTCall.writeDomain cfg.domain_path,
      WLSTCall.closeTemplate,
      WLSTCall.exit]

/-- The whole script: variable initialisation then the call sequence;
`none` when an `int()` conversion raises before any call is issued. -/
def createWlsDomain (env : Env) (username password : String) :
    Option (List WLSTCall) :=
  (mkConfig env).map (fun cfg => domainTrace cfg username password)

/-- One administrative call of the messaging script
`setupTestJMSQueue.py`.  Calls on distinct receivers get distinct
constructors (`cmo.addTarget` in `createJMSServer` versus
`module.addTarget` in `createJMSModule`). -/
inductive JMSCall where
  | setProperty (key value : String)
  | connect (user pass url : String)
  | getAttr (name : String)
  | edit
  | startEdit
  | cd (path : String)
  | lsJMSServers
  | cmoCreateJMSServer (name : String)
  | cmoAddTarget (mbeanPath : String)
  | create (name kind : String)
  | moduleAddTarget (mbeanPath : String)
  | createSubDeployment (name : String)
  | setTargets (objectNames : List String)
  | cmoCreateQueue (name : String)
  | cmoSetJNDIName (jndi : String)
  | cmoSetSubDeploymentName (name : String)
  | cmoCreateDistributedQueue (name : String)
  | cmoSetLoadBalancingPolicy (policy : String)
  | cmoCreateDistributedQueueMember (name : String)
  | cmoCreateConnectionFactory (name : String)
  | save
  | activate (block : String)
  | disconnect
deriving DecidableEq

/-- The part of the remote domain state the messaging script inspects:
the admin server name it reads with `get('AdminServerName')` and the
names listed under `/JMSServers` by `ls(returnMap='true')`. -/
structure RemoteState where
  adminServerName : String
  jmsServers : List String
deriving DecidableEq

/-- Source: `sub_deployment_name="TestJMSSubdeployment"` -/
def sub_deployment_name : String := "TestJMSSubdeployment"

/-- Source: `jms_module_name="TestJMSModule"` -/
def jms_module_name : String := "TestJMSModule"

/-- Source: `queue_name="TestQueue"` -/
def queue_name : String := "TestQueue"

/-- Source: `factory_name="TestConnectionFactory"` -/
def factory_name : String := "TestConnectionFactory"

/-- Source: `jms_server_name="TestJMSServer"` -/
def jms_server_name : String := "TestJMSServer"

/-- Function `createJMSServer` (script lines 31-38): create a JMS server targeted
at the admin server only when the `/JMSServers` listing is empty.
Returns the updated remote state together with the calls issued. -/
def createJMSServer (st : RemoteState) (adm_name srv_name : String) :
    RemoteState × List JMSCall :=
  if st.jmsServers.length == 0 then
    ({ st with jmsServers := st.jmsServers ++ [srv_name] },
     [JMSCall.cd "/JMSServers", JMSCall.lsJMSServers, JMSCall.cd "/",
      JMSCall.cmoCreateJMSServer srv_name,
      JMSCall.cd ("/JMSServers/" ++ srv_name),
      JMSCall.cmoAddTarget ("/Servers/" ++ adm_name)])
  else
    (st, [JMSCall.cd "/JMSServers", JMSCall.lsJMSServers])

/-- Function `createJMSModule` (script lines 41-55): create the JMS system
resource, its sub-deployment, and target the sub-deployment at every JMS
server currently listed. -/
def createJMSModule (st : RemoteState) (mod_name adm_name sub_name : String) :
    List JMSCall :=
  [JMSCall.cd "/JMSServers", JMSCall.lsJMSServers, JMSCall.cd "/",
   JMSCall.create mod_name "JMSSystemResource",
   JMSCall.moduleAddTarget ("Servers/" ++ adm_name),
   JMSCall.cd ("/SystemResources/" ++ mod_name),
   JMSCall.createSubDeployment sub_name,
   JMSCall.cd ("/SystemResources/" ++ mod_name ++ "/SubDeployments/" ++ sub_name),
   JMSCall.setTargets
     (st.jmsServers.map (fun i => "com.bea:Name=" ++ i ++ ",Type=JMSServer"))]

/-- Function `getJMSModulePath` (script lines 57-59). -/
def getJMSModulePath (mod_name : String) : String :=
  "/JMSSystemResources/" ++ mod_name ++ "/JMSResource/" ++ mod_name

/-- Function `createJMSQueue` (script lines 61-68); the sub-deployment name is the
module-level global `sub_deployment_name`. -/
def createJMSQueue (mod_name jms_queue_name : String) : List JMSCall :=
  [JMSCall.cd (getJMSModulePath mod_name),
   JMSCall.cmoCreateQueue jms_queue_name,
   JMSCall.cd (getJMSModulePath mod_name ++ "/Queues/" ++ jms_queue_name),
   JMSCall.cmoSetJNDIName ("jms/" ++ jms_queue_name),
   JMSCall.cmoSetSubDeploymentName sub_deployment_name]

/-- Function `createDistributedJMSQueue` (script lines 70-76): no sub-deployment
is assigned. -/
def createDistributedJMSQueue (mod_name jms_queue_name : String) : List JMSCall :=
  [JMSCall.cd (getJMSModulePath mod_name),
   JMSCall.cmoCreateDistributedQueue jms_queue_name,
   JMSCall.cd (getJMSModulePath mod_name ++ "/DistributedQueues/" ++ jms_queue_name),
   JMSCall.cmoSetJNDIName ("jms/" ++ jms_queue_name)]

/-- Function `addMemberQueue` (script lines 78-82); uses the module-level global
`jms_module_name`. -/
def addMemberQueue (udd_name member_name : String) : List JMSCall :=
  [JMSCall.cd (getJMSModulePath jms_module_name ++ "/DistributedQueues/" ++ udd_name),
   JMSCall.cmoSetLoadBalancingPolicy "Round-Robin",
   JMSCall.cmoCreateDistributedQueueMember member_name]

/-- Function `createJMSFactory` (script lines 84-91). -/
def createJMSFactory (mod_name jms_fact_name : String) : List JMSCall :=
  [JMSCall.cd (getJMSModulePath mod_name),
   JMSCall.cmoCreateConnectionFactory jms_fact_name,
   JMSCall.cd (getJMSModulePath mod_name ++ "/ConnectionFactories/" ++ jms_fact_name),
   JMSCall.cmoSetJNDIName ("jms/" ++ jms_fact_name),
   JMSCall.cmoSetSubDeploymentName sub_deployment_name]

/-- The full messaging script `setupTestJMSQueue.py`.  The script runs
with the process environment available but never consults it, so `env`
is a parameter the body does not use; `st` is the remote domain state at
connect time, threaded through `createJMSServer` so that the module
creation sees a JMS server the script itself just created. -/
def setupTestJMSQueue (env : Env) (st : RemoteState) : List JMSCall :=
  let adm_name := st.adminServerName
  let serverStep := createJMSServer st adm_name jms_server_name
  [JMSCall.setProperty "weblogic.security.SSL.ignoreHostnameVerification" "true",
   JMSCall.connect "admin" "Welcome1" "t3://localhost:7001",
   JMSCall.getAttr "AdminServerName",
   JMSCall.edit, JMSCall.startEdit]
  ++ serverStep.2
  ++ createJMSModule serverStep.1 jms_module_name adm_name sub_deployment_name
  ++ createJMSFactory jms_module_name factory_name
  ++ createJMSQueue jms_module_name queue_name
  ++ createDistributedJMSQueue jms_module_name "udd_queue"
  ++ createJMSQueue jms_module_name "ms1@udd_queue"
  ++ createJMSQueue jms_module_name "ms2@udd_queue"
  ++ addMemberQueue "udd_queue" "ms1@udd_queue"
  ++ addMemberQueue "udd_queue" "ms2@udd_queue"
  ++ [JMSCall.save, JMSCall.activate "true", JMSCall.disconnect]

/-- Fail-fast execution of a planned call sequence: each call is issued
in order; the first call the remote side rejects terminates the run (an
uncaught exception ends the script), with no further and no compensating
calls.  Returns the calls actually issued. -/
def runSeq {α : Type} (ok : α → Bool) : List α → List α × Bool
  | [] => ([], true)
  | c :: cs =>
      if ok c then ((c :: (runSeq ok cs).1, (runSeq ok cs).2)) else ([c], false)

theorem runSeq_sub {α : Type} (ok : α → Bool) :
    ∀ calls : List α, ∃ rest, calls = (runSeq ok calls).1 ++ rest := by
  intro calls
  induction calls with
  | nil => exact ⟨[], rfl⟩
  | cons c cs ih =>
      by_cases h : ok c = true
      · obtain ⟨rest, hrest⟩ := ih
        exact ⟨rest, by simp [runSeq, h]; exact hrest⟩
      · exact ⟨cs, by simp [runSeq, h]⟩

theorem runSeq_stop {α : Type} (ok : α → Bool) :
    ∀ (pre : List α) (c : α) (post : List α),
      (∀ x ∈ pre, ok x = true) → ok c = false →
      runSeq ok (pre ++ c :: post) = (pre ++ [c], false) := by
  intro pre
  induction pre with
  | nil => intro c post _ hc; simp [runSeq, hc]
  | cons x xs ih =>
      intro c post hpre hc
      have hx : ok x = true := hpre x (by simp)
      have := ih c post (fun y hy => hpre y (by simp [hy])) hc
      simp [runSeq, hx, this]

theorem runSeq_all {α : Type} (ok : α → Bool) :
    ∀ calls : List α, (runSeq ok calls).2 = true ↔ ∀ c ∈ calls, ok c = true := by
  intro calls
  induction calls with
  | nil => simp [runSeq]
  | cons c cs ih =>
      by_cases hc : ok c = true
      · simp [runSeq, hc, ih]
      · simp [runSeq, hc]

theorem runSeq_succ_eq {α : Type} (ok : α → Bool) :
    ∀ calls : List α, (runSeq ok calls).2 = true → (runSeq ok calls).1 = calls := by
  intro calls
  induction calls with
  | nil => intro; rfl
  | cons c cs ih =>
      intro h
      by_cases hc : ok c = true
      · simp [runSeq, hc] at h ⊢
        exact ih h
      · simp [runSeq, hc] at h

end WLS


namespace WLS

/-- C2: for every supported environment variable of the domain-creation
script, an unset variable yields the documented default: DOMAIN_NAME →
"base_domain", ADMIN_NAME → "AdminServer", ADMIN_LISTEN_PORT → 7001,
PRODUCTION_MODE → "prod", ADMINISTRATION_PORT_ENABLED → "true",
ADMINISTRATION_PORT → 9002. -/
theorem unset_env_vars_yield_defaults (env : Env) :
    (env.DOMAIN_NAME = none → domain_name env = "base_domain") ∧
    (env.ADMIN_NAME = none → admin_name env = "AdminServer") ∧
    (env.ADMIN_LISTEN_PORT = none → admin_listen_port env = some 7001) ∧
    (env.PRODUCTION_MODE = none → production_mode env = "prod") ∧
    (env.ADMINISTRATION_PORT_ENABLED = none →
      administration_port_enabled env = "true") ∧
    (env.ADMINISTRATION_PORT = none → administration_port env = some 9002) := by
  refine ⟨?_, ?_, ?_, ?_, ?_, ?_⟩ <;> intro h <;>
    simp [domain_name, admin_name, admin_listen_port, production_mode,
          administration_port_enabled, administration_port, h] <;> decide

/-- Witness for C2 at the empty environment. -/
theorem unset_env_vars_yield_defaults_witness :
    domain_name ⟨none, none, none, none, none, none⟩ = "base_domain" ∧
    admin_name ⟨none, none, none, none, none, none⟩ = "AdminServer" ∧
    admin_listen_port ⟨none, none, none, none, none, none⟩ = some 7001 ∧
    production_mode ⟨none, none, none, none, none, none⟩ = "prod" ∧
    administration_port_enabled ⟨none, none, none, none, none, none⟩ = "true" ∧
    administration_port ⟨none, none, none, none, none, none⟩ = some 9002 :=
  ⟨(unset_env_vars_yield_defaults _).1 rfl,
   (unset_env_vars_yield_defaults _).2.1 rfl,
   (unset_env_vars_yield_defaults _).2.2.1 rfl,
   (unset_env_vars_yield_defaults _).2.2.2.1 rfl,
   (unset_env_vars_yield_defaults _).2.2.2.2.1 rfl,
   (unset_env_vars_yield_defaults _).2.2.2.2.2 rfl⟩

end WLS

namespace WLS

/-- C7: for every value of DOMAIN_NAME, the domain-creation script sets
the domain's Name and the DomainName option to that value and writes the
domain to "/u01/oracle/user_projects/domains/" followed by that value. -/
theorem domain_name_propagates (env : Env) (cfg : Config) (u p : String)
    (h : mkConfig env = some cfg) :
    cfg.domain_name = env.DOMAIN_NAME.getD "base_domain" ∧
    WLSTCall.set "Name" (WValue.str cfg.domain_name) ∈ domainTrace cfg u p ∧
    WLSTCall.setOption "DomainName" cfg.domain_name ∈ domainTrace cfg u p ∧
    WLSTCall.writeDomain ("/u01/oracle/user_projects/domains/" ++ cfg.domain_name)
      ∈ domainTrace cfg u p := by
  refine ⟨?_, ?_, ?_, ?_⟩
  · unfold mkConfig at h
    rcases hlp : admin_listen_port env with _ | lp <;> rw [hlp] at h
    · simp at h
    rcases hap : administration_port env with _ | ap <;> rw [hap] at h
    · simp at h
    simp at h
    rw [← h]
    rfl
  all_goals
    by_cases hc : cfg.administration_port_enabled = "false" <;>
      simp [domainTrace, Config.domain_path, hc]

/-- Witness for C7 at the empty environment. -/
theorem domain_name_propagates_witness :
    (⟨"base_domain", "AdminServer", 7001, "prod", "true", 9002⟩ : Config).domain_name
        = (⟨none, none, none, none, none, none⟩ : Env).DOMAIN_NAME.getD "base_domain" ∧
    WLSTCall.set "Name" (WValue.str "base_domain")
        ∈ domainTrace ⟨"base_domain", "AdminServer", 7001, "prod", "true", 9002⟩ "weblogic" "welcome1" ∧
    WLSTCall.setOption "DomainName" "base_domain"
        ∈ domainTrace ⟨"base_domain", "AdminServer", 7001, "prod", "true", 9002⟩ "weblogic" "welcome1" ∧
    WLSTCall.writeDomain ("/u01/oracle/user_projects/domains/" ++ "base_domain")
        ∈ domainTrace ⟨"base_domain", "AdminServer", 7001, "prod", "true", 9002⟩ "weblogic" "welcome1" :=
  domain_name_propagates ⟨none, none, none, none, none, none⟩
    ⟨"base_domain", "AdminServer", 7001, "prod", "true", 9002⟩
    "weblogic" "welcome1" (by decide)

end WLS

namespace WLS

/-- C1: with ADMINISTRATION_PORT_ENABLED equal to "false", the domain
script issues no set of AdministrationPort, no SSL channel creation and
no set of Enabled on the SSL bean; every other configuration step is
issued unchanged — the trace equals the enabled trace with exactly the
two guarded blocks removed. -/
theorem admin_port_disabled_skips (cfg : Config) (u p : String)
    (h : cfg.administration_port_enabled = "false") :
    (∀ v, WLSTCall.set "AdministrationPort" v ∉ domainTrace cfg u p) ∧
    (∀ n, WLSTCall.create n "SSL" ∉ domainTrace cfg u p) ∧
    (∀ v, WLSTCall.set "Enabled" v ∉ domainTrace cfg u p) ∧
    ∃ pre mid post,
      domainTrace cfg u p = pre ++ mid ++ post ∧
      domainTrace { cfg with administration_port_enabled := "true" } u p =
        pre
        ++ [WLSTCall.set "AdministrationPort" (WValue.int cfg.administration_port),
            WLSTCall.set "AdministrationPortEnabled" (WValue.str "false")]
        ++ mid
        ++ [WLSTCall.create cfg.admin_name "SSL",
            WLSTCall.cd ("SSL/" ++ cfg.admin_name),
            WLSTCall.set "Enabled" (WValue.str "True")]
        ++ post := by
  refine ⟨?_, ?_, ?_,
    [WLSTCall.readTemplate "/u01/oracle/wlserver/common/templates/wls/wls.jar",
     WLSTCall.set "Name" (WValue.str cfg.domain_name),
     WLSTCall.setOption "DomainName" cfg.domain_name],
    [WLSTCall.cd "/Servers/AdminServer",
     WLSTCall.set "Name" (WValue.str cfg.admin_name),
     WLSTCall.set "ListenAddress" (WValue.str ""),
     WLSTCall.set "ListenPort" (WValue.int cfg.admin_listen_port)],
    [WLSTCall.cd ("/Security/" ++ cfg.domain_name ++ "/User/weblogic"),
     WLSTCall.cmoSetName u,
     WLSTCall.cmoSetPassword p,
     WLSTCall.setOption "OverwriteDomain" "true",
     WLSTCall.setOption "ServerStartMode" cfg.production_mode,
     WLSTCall.writeDomain cfg.domain_path,
     WLSTCall.closeTemplate,
     WLSTCall.exit], ?_, ?_⟩
  · intro v; simp [domainTrace, h]
  · intro n; simp [domainTrace, h]
  · intro v; simp [domainTrace, h]
  · simp [domainTrace, h]
  · simp [domainTrace, Config.domain_path]

/-- Witness for C1 at a concrete disabled configuration. -/
theorem admin_port_disabled_skips_witness :
    WLSTCall.set "AdministrationPort" (WValue.int 9002) ∉
      domainTrace ⟨"base_domain", "AdminServer", 7001, "prod", "false", 9002⟩
        "weblogic" "welcome1" :=
  (admin_port_disabled_skips
      ⟨"base_domain", "AdminServer", 7001, "prod", "false", 9002⟩
      "weblogic" "welcome1" rfl).1 (WValue.int 9002)

end WLS

namespace WLS

/-- C8: whenever ADMINISTRATION_PORT_ENABLED is not "false", the script
sets AdministrationPort and, immediately after, sets the domain property
AdministrationPortEnabled to the string "false"; moreover no run ever
sets AdministrationPortEnabled to anything but "false". -/
theorem admin_port_enabled_flag_always_false (cfg : Config) (u p : String) :
    (cfg.administration_port_enabled ≠ "false" →
      ∃ pre post, domainTrace cfg u p =
        pre ++ WLSTCall.set "AdministrationPort" (WValue.int cfg.administration_port)
            :: WLSTCall.set "AdministrationPortEnabled" (WValue.str "false") :: post) ∧
    (∀ v, WLSTCall.set "AdministrationPortEnabled" v ∈ domainTrace cfg u p →
      v = WValue.str "false") := by
  constructor
  · intro h
    exact ⟨[WLSTCall.readTemplate "/u01/oracle/wlserver/common/templates/wls/wls.jar",
            WLSTCall.set "Name" (WValue.str cfg.domain_name),
            WLSTCall.setOption "DomainName" cfg.domain_name],
           [WLSTCall.cd "/Servers/AdminServer",
            WLSTCall.set "Name" (WValue.str cfg.admin_name),
            WLSTCall.set "ListenAddress" (WValue.str ""),
            WLSTCall.set "ListenPort" (WValue.int cfg.admin_listen_port),
            WLSTCall.create cfg.admin_name "SSL",
            WLSTCall.cd ("SSL/" ++ cfg.admin_name),
            WLSTCall.set "Enabled" (WValue.str "True"),
            WLSTCall.cd ("/Security/" ++ cfg.domain_name ++ "/User/weblogic"),
            WLSTCall.cmoSetName u,
            WLSTCall.cmoSetPassword p,
            WLSTCall.setOption "OverwriteDomain" "true",
            WLSTCall.setOption "ServerStartMode" cfg.production_mode,
            WLSTCall.writeDomain cfg.domain_path,
            WLSTCall.closeTemplate,
            WLSTCall.exit],
           by simp [domainTrace, h]⟩
  · intro v hv
    by_cases hc : cfg.administration_port_enabled = "false" <;>
      simp [domainTrace, hc] at hv
    exact hv

/-- Witness for C8 at a concrete enabled configuration. -/
theorem admin_port_enabled_flag_always_false_witness :
    ∃ pre post,
      domainTrace ⟨"base_domain", "AdminServer", 7001, "prod", "true", 9002⟩
          "weblogic" "welcome1" =
        pre ++ WLSTCall.set "AdministrationPort" (WValue.int 9002)
            :: WLSTCall.set "AdministrationPortEnabled" (WValue.str "false") :: post :=
  (admin_port_enabled_flag_always_false
      ⟨"base_domain", "AdminServer", 7001, "prod", "true", 9002⟩
      "weblogic" "welcome1").1 (by decide)

/-- C9: the disable test is an exact, case-sensitive comparison with
"false": any other value of ADMINISTRATION_PORT_ENABLED (such as
"FALSE", "False", "no", "0" or the empty string) produces exactly the
trace of the enabled case. -/
theorem admin_port_guard_case_sensitive (cfg : Config) (u p : String)
    (h : cfg.administration_port_enabled ≠ "false") :
    domainTrace cfg u p =
      domainTrace { cfg with administration_port_enabled := "true" } u p := by
  simp [domainTrace, Config.domain_path, h]

/-- Witness for C9 at the value "FALSE". -/
theorem admin_port_guard_case_sensitive_witness :
    domainTrace ⟨"base_domain", "AdminServer", 7001, "prod", "FALSE", 9002⟩
        "weblogic" "welcome1" =
      domainTrace { (⟨"base_domain", "AdminServer", 7001, "prod", "FALSE", 9002⟩ : Config)
          with administration_port_enabled := "true" } "weblogic" "welcome1" :=
  admin_port_guard_case_sensitive
    ⟨"base_domain", "AdminServer", 7001, "prod", "FALSE", 9002⟩
    "weblogic" "welcome1" (by decide)

end WLS

namespace WLS

/-- C3: when the JMS server listing is non-empty, `createJMSServer`
issues only the listing calls — no `cmo.createJMSServer` and no
`cmo.addTarget` — so re-running the script never creates a second JMS
server; a creation call occurs only when the listing is empty, and the
guard lifts to the whole messaging script. -/
theorem createJMSServer_guarded (st : RemoteState) (a n : String)
    (h : st.jmsServers ≠ []) :
    (createJMSServer st a n).2 = [JMSCall.cd "/JMSServers", JMSCall.lsJMSServers] ∧
    (∀ m, JMSCall.cmoCreateJMSServer m ∉ (createJMSServer st a n).2) ∧
    (∀ t, JMSCall.cmoAddTarget t ∉ (createJMSServer st a n).2) ∧
    (∀ env m, JMSCall.cmoCreateJMSServer m ∉ setupTestJMSQueue env st) ∧
    (∀ st' a' n' m, JMSCall.cmoCreateJMSServer m ∈ (createJMSServer st' a' n').2 →
      st'.jmsServers = []) := by
  have hlen : (st.jmsServers.length == 0) = false := by
    simp [List.length_eq_zero, h]
  refine ⟨by simp [createJMSServer, hlen], ?_, ?_, ?_, ?_⟩
  · intro m; simp [createJMSServer, hlen]
  · intro t; simp [createJMSServer, hlen]
  · intro env m
    simp [setupTestJMSQueue, createJMSServer, hlen, createJMSModule,
          createJMSFactory, createJMSQueue, createDistributedJMSQueue,
          addMemberQueue, getJMSModulePath]
  · intro st' a' n' m hm
    by_cases hl : st'.jmsServers = []
    · exact hl
    · have hlen' : (st'.jmsServers.length == 0) = false := by
        simp [List.length_eq_zero, hl]
      simp [createJMSServer, hlen'] at hm

/-- Witness for C3 at a state that already holds one JMS server. -/
theorem createJMSServer_guarded_witness :
    (createJMSServer ⟨"AdminServer", ["ExistingServer"]⟩ "AdminServer" "TestJMSServer").2
      = [JMSCall.cd "/JMSServers", JMSCall.lsJMSServers] :=
  (createJMSServer_guarded ⟨"AdminServer", ["ExistingServer"]⟩
    "AdminServer" "TestJMSServer" (by decide)).1

end WLS

namespace WLS

/-- Selects the administrative calls C4 orders: the create calls for the
JMS server, module, connection factory, queues, distributed queue and
its members, and the closing save/activate/disconnect. -/
def isProvisioningCall : JMSCall → Bool
  | JMSCall.cmoCreateJMSServer _ => true
  | JMSCall.create _ _ => true
  | JMSCall.cmoCreateConnectionFactory _ => true
  | JMSCall.cmoCreateQueue _ => true
  | JMSCall.cmoCreateDistributedQueue _ => true
  | JMSCall.cmoCreateDistributedQueueMember _ => true
  | JMSCall.save => true
  | JMSCall.activate _ => true
  | JMSCall.disconnect => true
  | _ => false

/-- C4: for every environment and initial remote state, the messaging
script issues its administrative create calls in one deterministic
order: JMS server (when created at all), then module, connection
factory, queue, distributed queue, member queues, members, then
save/activate/disconnect. -/
theorem provisioning_call_order (env : Env) (st : RemoteState) :
    (setupTestJMSQueue env st).filter isProvisioningCall =
      (if st.jmsServers = [] then [JMSCall.cmoCreateJMSServer "TestJMSServer"] else [])
      ++ [JMSCall.create "TestJMSModule" "JMSSystemResource",
          JMSCall.cmoCreateConnectionFactory "TestConnectionFactory",
          JMSCall.cmoCreateQueue "TestQueue",
          JMSCall.cmoCreateDistributedQueue "udd_queue",
          JMSCall.cmoCreateQueue "ms1@udd_queue",
          JMSCall.cmoCreateQueue "ms2@udd_queue",
          JMSCall.cmoCreateDistributedQueueMember "ms1@udd_queue",
          JMSCall.cmoCreateDistributedQueueMember "ms2@udd_queue",
          JMSCall.save, JMSCall.activate "true", JMSCall.disconnect] := by
  by_cases h : st.jmsServers = []
  · simp [setupTestJMSQueue, createJMSServer, createJMSModule, createJMSFactory,
          createJMSQueue, createDistributedJMSQueue, addMemberQueue,
          getJMSModulePath, jms_server_name, jms_module_name, factory_name,
          queue_name, sub_deployment_name, isProvisioningCall, h]
  · have hlen : (st.jmsServers.length == 0) = false := by
      simp [List.length_eq_zero, h]
    simp [setupTestJMSQueue, createJMSServer, createJMSModule, createJMSFactory,
          createJMSQueue, createDistributedJMSQueue, addMemberQueue,
          getJMSModulePath, jms_server_name, jms_module_name, factory_name,
          queue_name, sub_deployment_name, isProvisioningCall, h, hlen]

end WLS

namespace WLS

/-- C10: every resource created inside the module gets the JNDI name
"jms/" followed by its own name; queues and the connection factory also
get sub-deployment "TestJMSSubdeployment", while the distributed queue
gets no sub-deployment assignment at all. -/
theorem jndi_naming_convention (m n : String) :
    (JMSCall.cmoSetJNDIName ("jms/" ++ n) ∈ createJMSQueue m n ∧
     JMSCall.cmoSetSubDeploymentName "TestJMSSubdeployment" ∈ createJMSQueue m n) ∧
    (JMSCall.cmoSetJNDIName ("jms/" ++ n) ∈ createDistributedJMSQueue m n ∧
     ∀ s, JMSCall.cmoSetSubDeploymentName s ∉ createDistributedJMSQueue m n) ∧
    (JMSCall.cmoSetJNDIName ("jms/" ++ n) ∈ createJMSFactory m n ∧
     JMSCall.cmoSetSubDeploymentName "TestJMSSubdeployment" ∈ createJMSFactory m n) := by
  refine ⟨⟨?_, ?_⟩, ⟨?_, ?_⟩, ⟨?_, ?_⟩⟩ <;>
    simp [createJMSQueue, createDistributedJMSQueue, createJMSFactory,
          sub_deployment_name]

/-- Witness for C10 at the module and queue the script uses. -/
theorem jndi_naming_convention_witness :
    JMSCall.cmoSetJNDIName ("jms/" ++ "TestQueue")
        ∈ createJMSQueue "TestJMSModule" "TestQueue" ∧
    ∀ s, JMSCall.cmoSetSubDeploymentName s
        ∉ createDistributedJMSQueue "TestJMSModule" "udd_queue" :=
  ⟨(jndi_naming_convention "TestJMSModule" "TestQueue").1.1,
   (jndi_naming_convention "TestJMSModule" "udd_queue").2.1.2⟩

/-- Selects `connect` calls. -/
def isConnectCall : JMSCall → Bool
  | JMSCall.connect _ _ _ => true
  | _ => false

/-- C6: the messaging script reads no environment variable — its trace
is the same for any two environments — and it issues exactly one connect
call, with the literal credentials admin/Welcome1 against
t3://localhost:7001; every resource it creates bears one of the literal
names fixed in the script. -/
theorem messaging_env_independent (env env' : Env) (st : RemoteState) :
    setupTestJMSQueue env st = setupTestJMSQueue env' st ∧
    (setupTestJMSQueue env st).filter isConnectCall
      = [JMSCall.connect "admin" "Welcome1" "t3://localhost:7001"] ∧
    (∀ m, JMSCall.cmoCreateJMSServer m ∈ setupTestJMSQueue env st →
      m = "TestJMSServer") ∧
    (∀ m k, JMSCall.create m k ∈ setupTestJMSQueue env st →
      m = "TestJMSModule" ∧ k = "JMSSystemResource") ∧
    (∀ m, JMSCall.cmoCreateConnectionFactory m ∈ setupTestJMSQueue env st →
      m = "TestConnectionFactory") ∧
    (∀ m, JMSCall.cmoCreateQueue m ∈ setupTestJMSQueue env st →
      m = "TestQueue" ∨ m = "ms1@udd_queue" ∨ m = "ms2@udd_queue") ∧
    (∀ m, JMSCall.cmoCreateDistributedQueue m ∈ setupTestJMSQueue env st →
      m = "udd_queue") := by
  by_cases h : (st.jmsServers.length == 0) = true <;>
    refine ⟨rfl, ?_, ?_, ?_, ?_, ?_, ?_⟩ <;>
      simp [setupTestJMSQueue, createJMSServer, createJMSModule,
            createJMSFactory, createJMSQueue, createDistributedJMSQueue,
            addMemberQueue, getJMSModulePath, jms_server_name,
            jms_module_name, factory_name, queue_name, sub_deployment_name,
            isConnectCall, h]

/-- Witness for C6 at two distinct environments and a fresh state. -/
theorem messaging_env_independent_witness :
    setupTestJMSQueue ⟨none, none, none, none, none, none⟩ ⟨"AdminServer", []⟩
      = setupTestJMSQueue
          ⟨some "other", some "X", some "8001", some "dev", some "false", some "9999"⟩
          ⟨"AdminServer", []⟩ :=
  (messaging_env_independent ⟨none, none, none, none, none, none⟩
    ⟨some "other", some "X", some "8001", some "dev", some "false", some "9999"⟩
    ⟨"AdminServer", []⟩).1

end WLS

namespace WLS

/-- C5: both scripts execute their planned call sequence fail-fast.  For
any failure behaviour of the remote side, (i) the issued calls are an
initial segment of the planned trace — no compensating or cleanup call
is ever issued and completed effects stay in place; (ii) the first
failing call terminates the run, nothing after it is issued; (iii) the
run succeeds exactly when every call is accepted, i.e. when the script
reaches its terminating call, in which case the whole trace was issued. -/
theorem scripts_fail_fast (cfg : Config) (u p : String) (env : Env)
    (st : RemoteState) (okd : WLSTCall → Bool) (okj : JMSCall → Bool) :
    (∃ rest, domainTrace cfg u p = (runSeq okd (domainTrace cfg u p)).1 ++ rest) ∧
    (∀ pre c post, domainTrace cfg u p = pre ++ c :: post →
      (∀ x ∈ pre, okd x = true) → okd c = false →
      runSeq okd (domainTrace cfg u p) = (pre ++ [c], false)) ∧
    ((runSeq okd (domainTrace cfg u p)).2 = true ↔
      ∀ c ∈ domainTrace cfg u p, okd c = true) ∧
    ((runSeq okd (domainTrace cfg u p)).2 = true →
      (runSeq okd (domainTrace cfg u p)).1 = domainTrace cfg u p) ∧
    (∃ rest, setupTestJMSQueue env st
      = (runSeq okj (setupTestJMSQueue env st)).1 ++ rest) ∧
    (∀ pre c post, setupTestJMSQueue env st = pre ++ c :: post →
      (∀ x ∈ pre, okj x = true) → okj c = false →
      runSeq okj (setupTestJMSQueue env st) = (pre ++ [c], false)) ∧
    ((runSeq okj (setupTestJMSQueue env st)).2 = true ↔
      ∀ c ∈ setupTestJMSQueue env st, okj c = true) ∧
    ((runSeq okj (setupTestJMSQueue env st)).2 = true →
      (runSeq okj (setupTestJMSQueue env st)).1 = setupTestJMSQueue env st) := by
  refine ⟨runSeq_sub _ _, ?_, runSeq_all _ _, runSeq_succ_eq _ _,
          runSeq_sub _ _, ?_, runSeq_all _ _, runSeq_succ_eq _ _⟩
  · intro pre c post hdec hpre hc
    rw [hdec]; exact runSeq_stop okd pre c post hpre hc
  · intro pre c post hdec hpre hc
    rw [hdec]; exact runSeq_stop okj pre c post hpre hc

end WLS

namespace WLS

/-- Witness for C5: with a remote side that rejects `closeTemplate`, the
domain script issues exactly the calls up to and including the failure
and reports no success. -/
theorem scripts_fail_fast_witness :
    runSeq (fun c => decide (c ≠ WLSTCall.closeTemplate))
        (domainTrace ⟨"base_domain", "AdminServer", 7001, "prod", "true", 9002⟩
          "weblogic" "welcome1")
      = ([WLSTCall.readTemplate "/u01/oracle/wlserver/common/templates/wls/wls.jar",
          WLSTCall.set "Name" (WValue.str "base_domain"),
          WLSTCall.setOption "DomainName" "base_domain",
          WLSTCall.set "AdministrationPort" (WValue.int 9002),
          WLSTCall.set "AdministrationPortEnabled" (WValue.str "false"),
          WLSTCall.cd "/Servers/AdminServer",
          WLSTCall.set "Name" (WValue.str "AdminServer"),
          WLSTCall.set "ListenAddress" (WValue.str ""),
          WLSTCall.set "ListenPort" (WValue.int 7001),
          WLSTCall.create "AdminServer" "SSL",
          WLSTCall.cd "SSL/AdminServer",
          WLSTCall.set "Enabled" (WValue.str "True"),
          WLSTCall.cd "/Security/base_domain/User/weblogic",
          WLSTCall.cmoSetName "weblogic",
          WLSTCall.cmoSetPassword "welcome1",
          WLSTCall.setOption "OverwriteDomain" "true",
          WLSTCall.setOption "ServerStartMode" "prod",
          WLSTCall.writeDomain "/u01/oracle/user_projects/domains/base_domain"]
         ++ [WLSTCall.closeTemplate], false) :=
  (scripts_fail_fast ⟨"base_domain", "AdminServer", 7001, "prod", "true", 9002⟩
      "weblogic" "welcome1" ⟨none, none, none, none, none, none⟩
      ⟨"AdminServer", []⟩ (fun c => decide (c ≠ WLSTCall.closeTemplate))
      (fun _ => true)).2.1
    [WLSTCall.readTemplate "/u01/oracle/wlserver/common/templates/wls/wls.jar",
     WLSTCall.set "Name" (WValue.str "base_domain"),
     WLSTCall.setOption "DomainName" "base_domain",
     WLSTCall.set "AdministrationPort" (WValue.int 9002),
     WLSTCall.set "AdministrationPortEnabled" (WValue.str "false"),
     WLSTCall.cd "/Servers/AdminServer",
     WLSTCall.set "Name" (WValue.str "AdminServer"),
     WLSTCall.set "ListenAddress" (WValue.str ""),
     WLSTCall.set "ListenPort" (WValue.int 7001),
     WLSTCall.create "AdminServer" "SSL",
     WLSTCall.cd "SSL/AdminServer",
     WLSTCall.set "Enabled" (WValue.str "True"),
     WLSTCall.cd "/Security/base_domain/User/weblogic",
     WLSTCall.cmoSetName "weblogic",
     WLSTCall.cmoSetPassword "welcome1",
     WLSTCall.setOption "OverwriteDomain" "true",
     WLSTCall.setOption "ServerStartMode" "prod",
     WLSTCall.writeDomain "/u01/oracle/user_projects/domains/base_domain"]
    WLSTCall.closeTemplate [WLSTCall.exit]
    (by decide) (by decide) (by decide)

end WLS
